import Mathlib

/-!
Shallow embedding of the Zainn attendance / leave reconciliation core.

The definitions below are translated from the TypeScript source:
* `determineStatus` and its `check_in_end` parsing — employee dashboard
  (src/unnamed/part_007, `determineStatus`),
* `handleApprove` / `handleDecline` — admin leave-request page
  (src/unnamed/part_003, `handleApprove` / `handleDecline`),
* `absentToday` / `attendanceRate` — admin dashboard statistics
  (src/unnamed/part_004, `fetchDashboardData`).

Dates are modelled as day numbers (days since 1970-01-01, as produced by
`new Date("YYYY-MM-DD")` which yields UTC midnight of that day); instants are
modelled as milliseconds since the epoch.  The persistence collaborator
(supabase) is modelled as an explicit record store `DB`; each remote call's
success or failure is an explicit boolean outcome, since the handlers'
control flow is what the error-handling claims are about.
-/

namespace Zainn

/-! ### JavaScript primitives used by the source

`parseInt` (no radix argument), `String.prototype.split(":")`, `Math.max`,
`Math.round` and NaN-propagating comparison are modelled exactly as the
handful of source call sites use them.
-/

/-- Characters `parseInt` skips as leading whitespace. -/
def jsSpace (c : Char) : Bool :=
  c = ' ' || c = '\t' || c = '\n' || c = '\r'

/-- Value of a character as a digit in radix `base` (a JS radix is at most 36,
but the source only ever hits 10 and the `0x` auto-radix 16). -/
def digitValIn (base : Nat) (c : Char) : Option Nat :=
  let v : Option Nat :=
    if '0' ≤ c && c ≤ '9' then some (c.toNat - '0'.toNat)
    else if 'a' ≤ c && c ≤ 'z' then some (c.toNat - 'a'.toNat + 10)
    else if 'A' ≤ c && c ≤ 'Z' then some (c.toNat - 'A'.toNat + 10)
    else none
  match v with
  | some n => if n < base then some n else none
  | none => none

/-- JS `parseInt(s)` on the character list of `s`: skip leading whitespace,
read an optional sign, auto-detect a `0x`/`0X` hex prefix, then consume the
longest run of digits valid in the radix.  `none` models `NaN`. -/
def jsParseInt (input : List Char) : Option Int :=
  let afterSpace := input.dropWhile jsSpace
  let signAndRest : Bool × List Char :=
    match afterSpace with
    | '-' :: rest => (true, rest)
    | '+' :: rest => (false, rest)
    | _ => (false, afterSpace)
  let baseAndRest : Nat × List Char :=
    match signAndRest.2 with
    | '0' :: 'x' :: rest => (16, rest)
    | '0' :: 'X' :: rest => (16, rest)
    | _ => (10, signAndRest.2)
  let base := baseAndRest.1
  let digits :=
    (baseAndRest.2.takeWhile (fun c => (digitValIn base c).isSome)).filterMap
      (digitValIn base)
  if digits.isEmpty then none
  else
    let n : Nat := digits.foldl (fun acc v => acc * base + v) 0
    some (if signAndRest.1 then -(n : Int) else (n : Int))

/-- JS `s.split(sep)` for a single-character separator: `""` splits to `[""]`,
and separators at the ends produce empty fields, exactly as in JS. -/
def splitOnChar (sep : Char) : List Char → List (List Char)
  | [] => [[]]
  | c :: rest =>
    let r := splitOnChar sep rest
    if c = sep then [] :: r
    else
      match r with
      | [] => [[c]]
      | h :: t => (c :: h) :: t

/-- JS `Math.round` on the (rational model of the) float argument:
round half toward positive infinity. -/
def jsMathRound (q : ℚ) : ℤ := ⌊q + 1 / 2⌋

/-- Milliseconds in one calendar day, the step of the approval loop. -/
def msPerDay : Nat := 86400000

/-- Day number (days since 1970-01-01) of a civil date, as computed by
`new Date("YYYY-MM-DD").getTime() / 86400000` (Howard Hinnant's algorithm). -/
def daysFromCivil (y : Int) (m d : Nat) : Int :=
  let y1 : Int := if m ≤ 2 then y - 1 else y
  let era : Int := (if 0 ≤ y1 then y1 else y1 - 399) / 400
  let yoe : Nat := (y1 - era * 400).toNat
  let mp : Nat := (m + 9) % 12
  let doy : Nat := (153 * mp + 2) / 5 + d - 1
  let doe : Nat := yoe * 365 + yoe / 4 - yoe / 100 + doy
  era * 146097 + (doe : Int) - 719468

/-- Inverse of `daysFromCivil`: civil `(year, month, day)` of a day number. -/
def civilFromDays (z0 : Int) : Int × Nat × Nat :=
  let z : Int := z0 + 719468
  let era : Int := (if 0 ≤ z then z else z - 146096) / 146097
  let doe : Nat := (z - era * 146097).toNat
  let yoe : Nat := (doe - doe / 1460 + doe / 36524 - doe / 146096) / 365
  let y : Int := (yoe : Int) + era * 400
  let doy : Nat := doe - (365 * yoe + yoe / 4 - yoe / 100)
  let mp : Nat := (5 * doy + 2) / 153
  let d : Nat := doy - (153 * mp + 2) / 5 + 1
  let m : Nat := if mp < 10 then mp + 3 else mp - 9
  ((if m ≤ 2 then y + 1 else y), m, d)

/-- Month abbreviations used by `format(date, "MMM d")` (date-fns, en-US). -/
def monthAbbrev (m : Nat) : String :=
  (["Jan", "Feb", "Mar", "Apr", "May", "Jun", "Jul", "Aug", "Sep", "Oct",
    "Nov", "Dec"]).getD (m - 1) "???"

/-- `format(date, "MMM d")` on a day number, e.g. `"Jan 10"`. -/
def formatMMMd (day : Nat) : String :=
  let c := civilFromDays (day : Int)
  monthAbbrev c.2.1 ++ " " ++ toString c.2.2

/-! ### Data model (supabase tables used by the claims) -/

/-- One row of `attendance_schedule` (one per weekday).  Times are `HH:MM:SS`
strings with no timezone, exactly as stored. -/
structure ScheduleDay where
  day_of_week : Nat
  is_working_day : Bool
  check_in_start : String
  check_in_end : String
  check_out_start : String
  check_out_end : String
deriving DecidableEq

/-- Local clock time of a check-in instant, as read off a JS `Date` by
`getHours()` / `getMinutes()` (the seconds are carried along to state
independence results). -/
structure ClockTime where
  hours : Nat
  minutes : Nat
  seconds : Nat
deriving DecidableEq

/-- One row of `leave_requests`.  `start_date` / `end_date` are day numbers
(the date-only strings parse to UTC midnight of that day). -/
structure LeaveRequest where
  id : Nat
  user_id : Nat
  start_date : Nat
  end_date : Nat
  reason : Option String
  status : String
  approved_by : Option Nat := none
  approved_at : Option Nat := none
deriving DecidableEq

/-- One row of `attendance`.  `check_in` is milliseconds since the epoch. -/
structure AttendanceRecord where
  user_id : Nat
  check_in : Nat
  status : String
  notes : Option String := none
deriving DecidableEq

/-- One row of `notifications` (`type` is a reserved word in Lean, so the
field is `ntype`). -/
structure Notification where
  user_id : Nat
  title : String
  message : String
  ntype : String
  related_type : Option String := none
  related_id : Option Nat := none
deriving DecidableEq

/-- The slice of the remote store the leave handlers read and write. -/
structure DB where
  leave_requests : List LeaveRequest
  attendance : List AttendanceRecord
  notifications : List Notification
deriving DecidableEq

/-- Outcome of each remote call `handleApprove` issues, in program order:
the `leave_requests` update, the batch `attendance` insert, the
`notifications` insert.  `false` models the call returning an error. -/
structure ApproveOutcomes where
  updateOk : Bool
  attendanceInsertOk : Bool
  notificationInsertOk : Bool
deriving DecidableEq

/-- Outcome of each remote call `handleDecline` issues, in program order. -/
structure DeclineOutcomes where
  updateOk : Bool
  notificationInsertOk : Bool
deriving DecidableEq

/-- What the admin sees at the end of a handler run: the success toast or the
destructive "Error" toast from the catch block. -/
inductive ToastKind where
  | success
  | error
deriving DecidableEq

/-- Final store plus the toast shown to the invoking admin. -/
structure ActionResult where
  db : DB
  toast : ToastKind
deriving DecidableEq

/-! ### Status Classifier (src/unnamed/part_007, `determineStatus`) -/

/-- `parseInt(parts[0]) * 60 + parseInt(parts[1])` over
`todaySchedule.check_in_end.split(":")`; `none` models the `NaN` that results
when either part fails to parse (a missing `parts[1]` is JS `undefined`,
which `parseInt` also turns into `NaN`). -/
def parsedCheckInEndMinutes (s : ScheduleDay) : Option Int :=
  let parts := splitOnChar ':' s.check_in_end.data
  match jsParseInt (parts.getD 0 []), jsParseInt (parts.getD 1 []) with
  | some h, some m => some (h * 60 + m)
  | _, _ => none

/-- `determineStatus(checkInTime)`: with no schedule row, `"present"`;
otherwise `"late"` iff the check-in's minutes-since-midnight strictly exceed
the parsed `check_in_end` minutes.  A `NaN` threshold makes the JS `>`
comparison false, which is the `none => "present"` arm here. -/
def determineStatus (todaySchedule : Option ScheduleDay) (checkInTime : ClockTime) :
    String :=
  match todaySchedule with
  | none => "present"
  | some s =>
    let currentMinutes : Int := (checkInTime.hours : Int) * 60 + checkInTime.minutes
    match parsedCheckInEndMinutes s with
    | none => "present"
    | some checkInEndMinutes =>
      if currentMinutes > checkInEndMinutes then "late" else "present"

/-! ### Leave Reconciler (src/unnamed/part_003, `handleApprove` / `handleDecline`) -/

/-- Days visited by `for (let d = new Date(startDate); d <= endDate;
d.setDate(d.getDate() + 1))`, as a count-down on the remaining gap
`endD + 1 - d`. -/
def leaveDaysFrom (d : Nat) : Nat → List Nat
  | 0 => []
  | gap + 1 => d :: leaveDaysFrom (d + 1) gap

/-- The approval loop's day sequence from `start_date` to `end_date`. -/
def leaveDaysLoop (d endD : Nat) : List Nat :=
  leaveDaysFrom d (endD + 1 - d)

/-- `request.reason || "No reason provided"`: JS `||` also replaces the empty
string. -/
def effectiveReason (reason : Option String) : String :=
  match reason with
  | some s => if s = "" then "No reason provided" else s
  | none => "No reason provided"

/-- The `leaveAttendanceRecords` array built by the approval loop: one record
per covered calendar day, `check_in` at that day's (UTC) midnight instant,
status `"leave"`, notes embedding the reason. -/
def buildLeaveRecords (request : LeaveRequest) : List AttendanceRecord :=
  (leaveDaysLoop request.start_date request.end_date).map fun d =>
    { user_id := request.user_id
      check_in := d * msPerDay
      status := "leave"
      notes := some ("Approved leave: " ++ effectiveReason request.reason) }

/-- The `leave_requests` update issued by `handleApprove`: set status
`"approved"` and stamp approver and time on the row with the matching id
(no guard on the row's current status). -/
def applyApproveUpdate (db : DB) (reqId approverId now : Nat) : DB :=
  { db with
    leave_requests := db.leave_requests.map fun r =>
      if r.id = reqId then
        { r with
          status := "approved"
          approved_by := some approverId
          approved_at := some now }
      else r }

/-- The `leave_requests` update issued by `handleDecline`. -/
def applyDeclineUpdate (db : DB) (reqId approverId now : Nat) : DB :=
  { db with
    leave_requests := db.leave_requests.map fun r =>
      if r.id = reqId then
        { r with
          status := "declined"
          approved_by := some approverId
          approved_at := some now }
      else r }

/-- The notification `handleApprove` inserts for the requester. -/
def approvedNotification (request : LeaveRequest) : Notification :=
  { user_id := request.user_id
    title := "Leave Request Approved"
    message := "Your leave request from " ++ formatMMMd request.start_date ++
      " to " ++ formatMMMd request.end_date ++ " has been approved."
    ntype := "success"
    related_type := some "leave"
    related_id := some request.id }

/-- The notification `handleDecline` inserts for the requester. -/
def declinedNotification (request : LeaveRequest) : Notification :=
  { user_id := request.user_id
    title := "Leave Request Declined"
    message := "Your leave request from " ++ formatMMMd request.start_date ++
      " to " ++ formatMMMd request.end_date ++ " has been declined."
    ntype := "error"
    related_type := some "leave"
    related_id := some request.id }

/-- `handleApprove(request)`.  Control flow from the source: the
`leave_requests` update error is checked and thrown (caught as the error
toast, store unchanged since the failed call wrote nothing); the results of
`await supabase.from("attendance").insert(...)` and of the notification
insert are discarded, so their failures change no control flow and the
success toast is shown regardless. -/
def handleApprove (request : LeaveRequest) (approverId now : Nat) (db : DB)
    (o : ApproveOutcomes) : ActionResult :=
  if o.updateOk then
    let db1 := applyApproveUpdate db request.id approverId now
    let leaveAttendanceRecords := buildLeaveRecords request
    let db2 :=
      if leaveAttendanceRecords.length > 0 then
        if o.attendanceInsertOk then
          { db1 with attendance := db1.attendance ++ leaveAttendanceRecords }
        else db1
      else db1
    let db3 :=
      if o.notificationInsertOk then
        { db2 with notifications := db2.notifications ++ [approvedNotification request] }
      else db2
    { db := db3, toast := ToastKind.success }
  else
    { db := db, toast := ToastKind.error }

/-- `handleDecline(request)`: status update (checked, thrown on error), then
a best-effort notification insert whose result is discarded.  No attendance
writes anywhere in the handler. -/
def handleDecline (request : LeaveRequest) (approverId now : Nat) (db : DB)
    (o : DeclineOutcomes) : ActionResult :=
  if o.updateOk then
    let db1 := applyDeclineUpdate db request.id approverId now
    let db2 :=
      if o.notificationInsertOk then
        { db1 with notifications := db1.notifications ++ [declinedNotification request] }
      else db1
    { db := db2, toast := ToastKind.success }
  else
    { db := db, toast := ToastKind.error }

/-- `pendingRequests = requests.filter((r) => r.status === "pending")`; the
page renders approve/decline buttons (`showActions = true`) only on the cards
of this list. -/
def pendingRequests (requests : List LeaveRequest) : List LeaveRequest :=
  requests.filter fun r => r.status == "pending"

/-! ### Aggregator (src/unnamed/part_004, `fetchDashboardData`) -/

/-- `absentToday = Math.max(0, (employeeCount || 0) - totalAttendanceToday)`;
`employeeCount` is the (nullable) active-employee head count and
`todayAttendance` the records whose `check_in` falls on the day. -/
def absentToday (employeeCount : Option Nat) (todayAttendance : List AttendanceRecord) :
    ℤ :=
  max 0 ((employeeCount.getD 0 : ℤ) - todayAttendance.length)

/-- `weekPresent`: records of the Monday-start week window with status
`"present"` or `"late"`. -/
def weekPresentCount (weekAttendance : List AttendanceRecord) : Nat :=
  (weekAttendance.filter fun a => a.status == "present" || a.status == "late").length

/-- `attendanceRate = weekTotal > 0 ? Math.round((weekPresent / weekTotal) *
100) : 0` with `weekTotal = (employeeCount || 0) * 5`. -/
def attendanceRate (employeeCount : Option Nat) (weekAttendance : List AttendanceRecord) :
    ℤ :=
  let weekPresent := weekPresentCount weekAttendance
  let weekTotal := employeeCount.getD 0 * 5
  if weekTotal > 0 then
    jsMathRound ((weekPresent : ℚ) / (weekTotal : ℚ) * 100)
  else 0

/-! ### Concrete sample data for witnesses and counterexamples -/

/-- All three remote calls of an approval succeed. -/
def allOk : ApproveOutcomes := ⟨true, true, true⟩

/-- A pending three-day request, 2024-01-10 .. 2024-01-12 (day numbers 19732
and 19734). -/
def sampleRequest : LeaveRequest :=
  { id := 1
    user_id := 7
    start_date := 19732
    end_date := 19734
    reason := some "family event"
    status := "pending" }

/-- The same request after a first successful approval by admin 2. -/
def approvedSampleRequest : LeaveRequest :=
  { sampleRequest with
    status := "approved"
    approved_by := some 2
    approved_at := some 0 }

/-- The sample request after a successful decline by admin 2. -/
def declinedSampleRequest : LeaveRequest :=
  { sampleRequest with
    status := "declined"
    approved_by := some 2
    approved_at := some 0 }

/-- Store holding just the pending sample request. -/
def sampleDB : DB :=
  { leave_requests := [sampleRequest], attendance := [], notifications := [] }

/-- Store as left by a first successful approval of `sampleRequest`. -/
def approvedOnceDB : DB :=
  (handleApprove sampleRequest 2 0 sampleDB allOk).db

/-- A plain `"present"` attendance row. -/
def presentRecord : AttendanceRecord :=
  { user_id := 1, check_in := 0, status := "present", notes := none }

/-- Schedule row closing check-in at 09:30:00, on a non-working day, used to
exercise the classifier boundary. -/
def sched0930 : ScheduleDay :=
  { day_of_week := 0
    is_working_day := false
    check_in_start := "08:00:00"
    check_in_end := "09:30:00"
    check_out_start := "17:00:00"
    check_out_end := "19:00:00" }

/-- Same check-in deadline down to the minute (different seconds field and
different unrelated fields), on a working day. -/
def sched0930v : ScheduleDay :=
  { day_of_week := 3
    is_working_day := true
    check_in_start := "07:45:00"
    check_in_end := "09:30:59"
    check_out_start := "16:00:00"
    check_out_end := "18:00:00" }

/-- Schedule row whose `check_in_end` is not a parsable time. -/
def schedMalformed : ScheduleDay :=
  { sched0930 with check_in_end := "morning" }

end Zainn

namespace Zainn

/-! ### Helper lemmas -/

/-- The loop day list is an arithmetic range. -/
theorem leaveDaysFrom_eq_range' (n d : Nat) : leaveDaysFrom d n = List.range' d n := by
  induction n generalizing d with
  | zero => rfl
  | succ k ih => rw [leaveDaysFrom, List.range'_succ, ih]

/-- `leaveDaysLoop` satisfies the defining recurrence of the source loop
`for (let d = start; d <= end; d += 1 day)`. -/
theorem leaveDaysLoop_eq_ite (d endD : Nat) :
    leaveDaysLoop d endD = if d ≤ endD then d :: leaveDaysLoop (d + 1) endD else [] := by
  unfold leaveDaysLoop
  by_cases h : d ≤ endD
  · rw [if_pos h]
    have h1 : endD + 1 - d = (endD + 1 - (d + 1)) + 1 := by omega
    rw [h1, leaveDaysFrom]
  · rw [if_neg h]
    have h1 : endD + 1 - d = 0 := by omega
    rw [h1, leaveDaysFrom]

/-- Closed form of the loop day list. -/
theorem leaveDaysLoop_eq_range' (d endD : Nat) :
    leaveDaysLoop d endD = List.range' d (endD + 1 - d) :=
  leaveDaysFrom_eq_range' (endD + 1 - d) d

/-! ### Claim theorems: Status Classifier -/

/-- C2: for every check-in instant and schedule day whose `check_in_end`
parses to `e` minutes since midnight, the classifier returns `"late"` exactly
when the check-in's minutes since midnight strictly exceed `e`, and
`"present"` exactly when they do not (inclusive boundary). -/
theorem determineStatus_late_iff_after_deadline (s : ScheduleDay) (t : ClockTime)
    (e : Int) (h : parsedCheckInEndMinutes s = some e) :
    (determineStatus (some s) t = "late" ↔ e < (t.hours : Int) * 60 + t.minutes)
    ∧ (determineStatus (some s) t = "present" ↔ (t.hours : Int) * 60 + t.minutes ≤ e) := by
  have hne : ("late" : String) ≠ "present" := by decide
  simp only [determineStatus, h]
  split_ifs with hgt
  · exact ⟨⟨fun _ => hgt, fun _ => rfl⟩,
      ⟨fun hc => absurd hc hne, fun hle => absurd hgt (not_lt.mpr hle)⟩⟩
  · exact ⟨⟨fun hc => absurd hc.symm hne, fun hlt => absurd hlt hgt⟩,
      ⟨fun _ => not_lt.mp hgt, fun _ => rfl⟩⟩

/-- Witness for C2: with `check_in_end = "09:30:00"` (570 minutes), 08:59 and
09:30 classify `"present"` and 09:31 classifies `"late"`. -/
theorem determineStatus_late_iff_after_deadline_witness :
    parsedCheckInEndMinutes sched0930 = some 570
    ∧ determineStatus (some sched0930) ⟨8, 59, 0⟩ = "present"
    ∧ determineStatus (some sched0930) ⟨9, 30, 0⟩ = "present"
    ∧ determineStatus (some sched0930) ⟨9, 31, 0⟩ = "late" :=
  ⟨by decide,
   (determineStatus_late_iff_after_deadline sched0930 ⟨8, 59, 0⟩ 570 (by decide)).2.mpr
     (by decide),
   (determineStatus_late_iff_after_deadline sched0930 ⟨9, 30, 0⟩ 570 (by decide)).2.mpr
     (by decide),
   (determineStatus_late_iff_after_deadline sched0930 ⟨9, 31, 0⟩ 570 (by decide)).1.mpr
     (by decide)⟩

/-- C5: with no schedule row for the day, the classifier returns `"present"`
for every check-in instant (fail-open). -/
theorem determineStatus_defaults_present_without_schedule (t : ClockTime) :
    determineStatus none t = "present" := rfl

/-- C6: when `check_in_end` cannot be parsed into hours and minutes (the JS
computation yields `NaN`), the classifier returns `"present"` for every
check-in instant; it is a total function, so it cannot throw. -/
theorem determineStatus_malformed_check_in_end_present (s : ScheduleDay)
    (t : ClockTime) (h : parsedCheckInEndMinutes s = none) :
    determineStatus (some s) t = "present" := by
  simp only [determineStatus, h]

/-- Witness for C6: `check_in_end = "morning"` does not parse and yields
`"present"` at 09:45. -/
theorem determineStatus_malformed_check_in_end_present_witness :
    parsedCheckInEndMinutes schedMalformed = none
    ∧ determineStatus (some schedMalformed) ⟨9, 45, 0⟩ = "present" :=
  ⟨by decide,
   determineStatus_malformed_check_in_end_present schedMalformed ⟨9, 45, 0⟩ (by decide)⟩

/-- C10: the classification depends only on the check-in's hour and minute
and the parsed `check_in_end` minutes: `is_working_day`, the seconds of the
check-in instant and the other schedule fields never influence it. -/
theorem determineStatus_noninterference (t1 t2 : ClockTime) (s1 s2 : ScheduleDay)
    (hh : t1.hours = t2.hours) (hm : t1.minutes = t2.minutes)
    (hs : parsedCheckInEndMinutes s1 = parsedCheckInEndMinutes s2) :
    determineStatus (some s1) t1 = determineStatus (some s2) t2 := by
  simp only [determineStatus, hs, hh, hm]

/-- Witness for C10: a 09:31 check-in on a non-working day is classified the
same as one with different seconds on a working day with different window
fields, and it is `"late"`, not a special non-working-day status. -/
theorem determineStatus_noninterference_witness :
    parsedCheckInEndMinutes sched0930 = parsedCheckInEndMinutes sched0930v
    ∧ determineStatus (some sched0930) ⟨9, 31, 0⟩
        = determineStatus (some sched0930v) ⟨9, 31, 59⟩
    ∧ sched0930.is_working_day = false
    ∧ determineStatus (some sched0930) ⟨9, 31, 0⟩ = "late" :=
  ⟨by decide,
   determineStatus_noninterference ⟨9, 31, 0⟩ ⟨9, 31, 59⟩ sched0930 sched0930v rfl rfl
     (by decide),
   by decide, by decide⟩

end Zainn

namespace Zainn

/-! ### Claim theorems: Aggregator -/

/-- C8: the daily summary's absent count is `max(0, E - n)` for active
employee count `E` and `n` attendance records found on the day, hence never
negative; it is `E - n` when `n ≤ E` and `0` once `n ≥ E`. -/
theorem absentToday_nonneg_floor (E : ℕ) (recs : List AttendanceRecord) :
    absentToday (some E) recs = max 0 ((E : ℤ) - recs.length)
    ∧ 0 ≤ absentToday (some E) recs
    ∧ (recs.length ≤ E → absentToday (some E) recs = (E : ℤ) - recs.length)
    ∧ (E ≤ recs.length → absentToday (some E) recs = 0) := by
  refine ⟨rfl, le_max_left _ _, fun h => ?_, fun h => ?_⟩
  · exact max_eq_right (sub_nonneg.mpr (by exact_mod_cast h))
  · exact max_eq_left (sub_nonpos.mpr (by exact_mod_cast h))

/-- Witness for C8: ten active employees and twelve records give absent 0. -/
theorem absentToday_nonneg_floor_witness :
    (List.replicate 12 presentRecord).length ≥ 10
    ∧ absentToday (some 10) (List.replicate 12 presentRecord) = 0 :=
  ⟨by decide,
   (absentToday_nonneg_floor 10 (List.replicate 12 presentRecord)).2.2.2 (by decide)⟩

/-- C9: for a positive active-employee count `E`, the weekly rate is the
count of `"present"`/`"late"` records of the window divided by `E × 5`,
expressed as a rounded (half-up, not truncated) integer percentage; in closed
form it is `(200 p + 5 E) / (10 E)` in integer division. -/
theorem attendanceRate_rounded_percentage (E : ℕ) (hE : 1 ≤ E)
    (weekAttendance : List AttendanceRecord) :
    attendanceRate (some E) weekAttendance
      = jsMathRound ((weekPresentCount weekAttendance : ℚ) / ((E * 5 : ℕ) : ℚ) * 100)
    ∧ attendanceRate (some E) weekAttendance
      = (((200 * weekPresentCount weekAttendance + 5 * E) / (10 * E) : ℕ) : ℤ) := by
  have hE0 : ((E : ℚ)) ≠ 0 := by
    have h0 : (0 : ℚ) < (E : ℚ) := by exact_mod_cast hE
    exact ne_of_gt h0
  have h1 : attendanceRate (some E) weekAttendance
      = jsMathRound ((weekPresentCount weekAttendance : ℚ) / ((E * 5 : ℕ) : ℚ) * 100) := by
    unfold attendanceRate
    simp only [Option.getD_some]
    rw [if_pos (by omega : E * 5 > 0)]
  refine ⟨h1, h1.trans ?_⟩
  have hq : (weekPresentCount weekAttendance : ℚ) / ((E * 5 : ℕ) : ℚ) * 100 + 1 / 2
      = ((200 * weekPresentCount weekAttendance + 5 * E : ℕ) : ℚ) / ((10 * E : ℕ) : ℚ) := by
    push_cast
    field_simp
    ring
  unfold jsMathRound
  rw [hq, Rat.floor_natCast_div_natCast]
  norm_cast

/-- Witness for C9: twenty active employees and 85 present/late records give
a weekly rate of 85 percent. -/
theorem attendanceRate_rounded_percentage_witness :
    (1 : ℕ) ≤ 20
    ∧ attendanceRate (some 20) (List.replicate 85 presentRecord) = 85 :=
  ⟨by decide, by
    have h := (attendanceRate_rounded_percentage 20 (by decide)
      (List.replicate 85 presentRecord)).2
    rw [h]
    decide⟩

end Zainn

namespace Zainn

/-! ### Claim theorems: Leave Reconciler -/

/-- C1: a fully successful approval appends exactly one attendance record per
calendar day of the closed interval `[start_date, end_date]` — one per day
including non-working days — each with `check_in` at that day's midnight
instant, status `"leave"`, and notes containing the leave reason. -/
theorem handleApprove_materializes_leave_span (request : LeaveRequest)
    (approverId now : Nat) (db : DB)
    (h : request.start_date ≤ request.end_date) :
    (handleApprove request approverId now db allOk).db.attendance
      = db.attendance ++ buildLeaveRecords request
    ∧ (buildLeaveRecords request).length
      = request.end_date - request.start_date + 1
    ∧ (buildLeaveRecords request).map (fun r => r.check_in)
      = (List.range' request.start_date (request.end_date - request.start_date + 1)).map
          (fun d => d * msPerDay)
    ∧ ∀ r ∈ buildLeaveRecords request,
        r.status = "leave"
        ∧ r.check_in % msPerDay = 0
        ∧ ∀ s, request.reason = some s → s ≠ "" →
            ∃ pre post, r.notes = some (pre ++ s ++ post) := by
  have hspan : leaveDaysLoop request.start_date request.end_date
      = List.range' request.start_date (request.end_date - request.start_date + 1) := by
    rw [leaveDaysLoop_eq_range']
    congr 1
    omega
  have hlen : (buildLeaveRecords request).length
      = request.end_date - request.start_date + 1 := by
    unfold buildLeaveRecords
    rw [List.length_map, hspan, List.length_range']
  have hpos : (buildLeaveRecords request).length > 0 := by
    rw [hlen]; omega
  refine ⟨?_, hlen, ?_, ?_⟩
  · simp only [handleApprove, allOk, if_pos, if_true]
    rw [if_pos hpos]
    rfl
  · unfold buildLeaveRecords
    rw [hspan, List.map_map]
    rfl
  · intro r hr
    unfold buildLeaveRecords at hr
    rcases List.mem_map.mp hr with ⟨d, _, rfl⟩
    refine ⟨rfl, Nat.mul_mod_left d msPerDay, fun s hs hne => ?_⟩
    refine ⟨"Approved leave: ", "", ?_⟩
    simp [effectiveReason, hs, hne]

/-- Witness for C1: approving 2024-01-10 .. 2024-01-12 (day numbers 19732 to
19734) creates exactly three `"leave"` records, dated at the midnights of
January 10, 11 and 12. -/
theorem handleApprove_materializes_leave_span_witness :
    sampleRequest.start_date ≤ sampleRequest.end_date
    ∧ (handleApprove sampleRequest 2 0 sampleDB allOk).db.attendance
        = sampleDB.attendance ++ buildLeaveRecords sampleRequest
    ∧ (buildLeaveRecords sampleRequest).length = 3
    ∧ (buildLeaveRecords sampleRequest).map (fun r => r.check_in)
        = [(daysFromCivil 2024 1 10).toNat * msPerDay,
           (daysFromCivil 2024 1 11).toNat * msPerDay,
           (daysFromCivil 2024 1 12).toNat * msPerDay]
    ∧ (buildLeaveRecords sampleRequest).map (fun r => r.status)
        = ["leave", "leave", "leave"] :=
  ⟨by decide,
   (handleApprove_materializes_leave_span sampleRequest 2 0 sampleDB (by decide)).1,
   by decide, by decide, by decide⟩

/-- C3 counterexample: invoking `handleApprove` on a request whose status is
already `"approved"` is neither a no-op nor rejected: it reports success and
appends a second, duplicate copy of the per-day leave records. -/
theorem handleApprove_reapproval_not_idempotent_cex :
    approvedSampleRequest.status = "approved"
    ∧ approvedSampleRequest ∈ approvedOnceDB.leave_requests
    ∧ approvedOnceDB.attendance.length = 3
    ∧ (handleApprove approvedSampleRequest 2 5 approvedOnceDB allOk).toast
        = ToastKind.success
    ∧ (handleApprove approvedSampleRequest 2 5 approvedOnceDB allOk).db.attendance.length
        = 6 := by
  decide

/-- C3 amended: the handler itself never checks the request's status, so
duplicate prevention rests on the page offering approve/decline only on the
`pendingRequests` filter; the handlers only ever write `"approved"`
(approve) or `"declined"` (decline) to rows of the store, so the transitions
invocable through the page are pending→approved and pending→declined. -/
theorem leave_status_transition_discipline (requests : List LeaveRequest)
    (request : LeaveRequest) (approverId now : Nat) (db : DB)
    (o : ApproveOutcomes) (o2 : DeclineOutcomes) :
    (∀ r ∈ pendingRequests requests, r.status = "pending")
    ∧ (∀ r ∈ (handleApprove request approverId now db o).db.leave_requests,
        r ∈ db.leave_requests ∨ r.status = "approved")
    ∧ (∀ r ∈ (handleDecline request approverId now db o2).db.leave_requests,
        r ∈ db.leave_requests ∨ r.status = "declined") := by
  refine ⟨?_, ?_, ?_⟩
  · intro r hr
    simp only [pendingRequests, List.mem_filter, beq_iff_eq] at hr
    exact hr.2
  · intro r hr
    unfold handleApprove at hr
    by_cases hu : o.updateOk
    · rw [if_pos hu] at hr
      simp only [applyApproveUpdate] at hr
      by_cases hi : (buildLeaveRecords request).length > 0 <;>
        by_cases ha : o.attendanceInsertOk = true <;>
        by_cases hn : o.notificationInsertOk = true <;>
        simp only [hi, ha, hn, if_pos, if_neg, if_true, if_false] at hr <;>
        first
        | (rcases List.mem_map.mp hr with ⟨r0, hr0, rfl⟩
           by_cases hid : r0.id = request.id
           · rw [if_pos hid]; exact Or.inr rfl
           · rw [if_neg hid]; exact Or.inl hr0)
    · rw [if_neg hu] at hr
      exact Or.inl hr
  · intro r hr
    unfold handleDecline at hr
    by_cases hu : o2.updateOk
    · rw [if_pos hu] at hr
      simp only [applyDeclineUpdate] at hr
      by_cases hn : o2.notificationInsertOk = true <;>
        simp only [hn, if_pos, if_neg, if_true, if_false] at hr <;>
        first
        | (rcases List.mem_map.mp hr with ⟨r0, hr0, rfl⟩
           by_cases hid : r0.id = request.id
           · rw [if_pos hid]; exact Or.inr rfl
           · rw [if_neg hid]; exact Or.inl hr0)
    · rw [if_neg hu] at hr
      exact Or.inl hr

/-- Witness for C3 (amended): the pending filter only yields pending rows,
and concrete approve/decline runs write exactly those two statuses. -/
theorem leave_status_transition_discipline_witness :
    sampleRequest.status = "pending"
    ∧ approvedSampleRequest.status = "approved"
    ∧ declinedSampleRequest.status = "declined" :=
  ⟨(leave_status_transition_discipline [sampleRequest] sampleRequest 2 0 sampleDB
      allOk ⟨true, true⟩).1 sampleRequest (by decide),
   ((leave_status_transition_discipline [] sampleRequest 2 0 sampleDB
      allOk ⟨true, true⟩).2.1 approvedSampleRequest (by decide)).resolve_left (by decide),
   ((leave_status_transition_discipline [] sampleRequest 2 0 sampleDB
      allOk ⟨true, true⟩).2.2 declinedSampleRequest (by decide)).resolve_left (by decide)⟩

/-- C4 counterexample: with the `leave_requests` update succeeding and the
per-day attendance insert failing, the admin still sees the success toast and
no leave records exist — the persistence failure was silently swallowed, not
surfaced. -/
theorem handleApprove_swallows_attendance_insert_failure_cex :
    (handleApprove sampleRequest 2 0 sampleDB ⟨true, false, true⟩).toast
      = ToastKind.success
    ∧ (handleApprove sampleRequest 2 0 sampleDB ⟨true, false, true⟩).db.attendance
      = sampleDB.attendance := by
  decide

/-- C4 amended: the only persistence failure `handleApprove` surfaces is the
initial `leave_requests` update (whose error is thrown and caught); failures
of the attendance-records insert and of the notification insert never change
the outcome, and a failed update leaves the store untouched. -/
theorem handleApprove_error_toast_iff_update_fails (request : LeaveRequest)
    (approverId now : Nat) (db : DB) (o : ApproveOutcomes) :
    ((handleApprove request approverId now db o).toast = ToastKind.error
      ↔ o.updateOk = false)
    ∧ (o.updateOk = false → (handleApprove request approverId now db o).db = db) := by
  unfold handleApprove
  cases o with
  | mk u a n => cases u <;> cases a <;> cases n <;> simp

/-- Witness for C4 (amended): a failed update is surfaced as the error toast. -/
theorem handleApprove_error_toast_iff_update_fails_witness :
    (handleApprove sampleRequest 2 0 sampleDB ⟨false, true, true⟩).toast
      = ToastKind.error :=
  (handleApprove_error_toast_iff_update_fails sampleRequest 2 0 sampleDB
    ⟨false, true, true⟩).1.mpr rfl

/-- C7: declining a leave request never touches attendance; on a successful
update it only transitions the row's status to `"declined"`, stamps approver
and time, and (best-effort) appends one declined notification for the
requester; a failed update changes nothing and surfaces the error toast. -/
theorem handleDecline_frame (request : LeaveRequest) (approverId now : Nat)
    (db : DB) (o : DeclineOutcomes) :
    (handleDecline request approverId now db o).db.attendance = db.attendance
    ∧ (o.updateOk = true →
        (handleDecline request approverId now db o).db.leave_requests
          = db.leave_requests.map (fun r =>
              if r.id = request.id then
                { r with
                  status := "declined"
                  approved_by := some approverId
                  approved_at := some now }
              else r)
        ∧ (o.notificationInsertOk = true →
            (handleDecline request approverId now db o).db.notifications
              = db.notifications ++ [declinedNotification request]))
    ∧ (o.updateOk = false →
        (handleDecline request approverId now db o).db = db
        ∧ (handleDecline request approverId now db o).toast = ToastKind.error) := by
  unfold handleDecline applyDeclineUpdate
  cases o with
  | mk u n => cases u <;> cases n <;> simp

/-- Witness for C7: a concrete successful decline leaves attendance unchanged
and emits exactly one declined notification. -/
theorem handleDecline_frame_witness :
    (handleDecline sampleRequest 2 0 sampleDB ⟨true, true⟩).db.attendance
      = sampleDB.attendance
    ∧ (handleDecline sampleRequest 2 0 sampleDB ⟨true, true⟩).db.notifications
      = sampleDB.notifications ++ [declinedNotification sampleRequest] :=
  ⟨(handleDecline_frame sampleRequest 2 0 sampleDB ⟨true, true⟩).1,
   ((handleDecline_frame sampleRequest 2 0 sampleDB ⟨true, true⟩).2.1 rfl).2 rfl⟩

end Zainn
